import Mathlib

/-!
A shallow embedding of the ELD route-planner's domain logic, translated from
`eld_system/models.py`, `eld_system/serializers.py` and `eld_system/views.py`.

Conventions of the embedding:
* Timestamps (`DateTime` values in Django) are minutes since an arbitrary epoch
  (`Nat`); a calendar date is a day number, recovered by `dateOf`.
  `datetime.combine(date, datetime.min.time())` is `midnightOf`.
* Decimal fields holding hours are embedded as `ℚ` (exact, like Python's
  `Decimal`); mile counts are `Nat` (`PositiveIntegerField`).
* `Vehicle.vehicle_type` is a free-form string at the storage layer
  (a `CharField`; the `VEHICLE_TYPES` choices of `models.py` are validation
  metadata enforced by the vehicle-creation serializer, not by the store).
* Fallible view operations return `Except`; Django's `transaction.atomic`
  is embedded by `planTrip`, which restores the initial database state
  whenever the inner computation `planTripAux` fails.
-/

deriving instance DecidableEq for Except

/-- Day number of a timestamp given in minutes since the epoch
(Python's `datetime.date()` on our minute-based clock). -/
def dateOf (t : Nat) : Nat := t / 1440

/-- Midnight of a given day number, as minutes since the epoch
(`datetime.combine(log_sheet.date, datetime.min.time())` in `views.py`). -/
def midnightOf (d : Nat) : Nat := d * 1440

/-- Vehicle rows (`models.py`, class `Vehicle`): only the fields the planning
logic reads.  `vehicle_type` is stored as a string; `models.py` declares the
choices `VEHICLE_TYPES = [("tractor", _), ("trailer", _)]`. -/
structure Vehicle where
  id : Nat
  vehicle_type : String
  is_active : Bool
  deriving DecidableEq, Repr

/-- The declared vehicle-type choices of `models.py` (`Vehicle.VEHICLE_TYPES`). -/
def VEHICLE_TYPES : List String := ["tractor", "trailer"]

/-- Trip status values (`models.py`, `Trip.STATUS_CHOICES`). -/
inductive TripStatus where
  | planned
  | in_progress
  | completed
  | cancelled
  deriving DecidableEq, Repr

/-- Trip rows (`models.py`, class `Trip`): the fields read or written by the
planning and lifecycle views.  The tractor reference is the model field
`tractor` (the views pass it under the keyword `truck_id`). -/
structure Trip where
  driver_id : Nat
  tractor_id : Nat
  trailer_id : Option Nat
  load_id : Option Nat
  current_location : String
  pickup_location : String
  dropoff_location : String
  current_cycle_used_hours : ℚ
  start_time : Nat
  estimated_end_time : Option Nat
  actual_end_time : Option Nat
  total_estimated_miles : Nat
  total_actual_miles : Nat
  status : TripStatus
  deriving DecidableEq, Repr

/-- Route waypoint rows (`models.py`, class `RouteWaypoint`). -/
structure RouteWaypoint where
  sequence : Nat
  location_name : String
  waypoint_type : String
  latitude : ℚ
  longitude : ℚ
  deriving DecidableEq, Repr

/-- Fuel stop rows (`models.py`, class `FuelStop`). -/
structure FuelStop where
  location : String
  miles_from_start : Nat
  estimated_time : Nat
  fuel_needed : Bool
  deriving DecidableEq, Repr

/-- Rest break rows (`models.py`, class `RestBreak`). -/
structure RestBreak where
  break_type : String
  location : String
  scheduled_start : Nat
  scheduled_end : Nat
  deriving DecidableEq, Repr

/-- Daily log sheet rows (`models.py`, class `ELDLogSheet`).  All five totals
are `Decimal` fields with `default=Decimal("0")`; `hos_violation` defaults to
`False` and `violation_notes` to the empty string. -/
structure ELDLogSheet where
  driver_id : Nat
  date : Nat
  total_off_duty_time : ℚ
  total_sleeper_berth_time : ℚ
  total_driving_time : ℚ
  total_on_duty_time : ℚ
  total_duty_time : ℚ
  miles_driven : Nat
  hos_violation : Bool
  violation_notes : String
  deriving DecidableEq, Repr

/-- Duty status values (`models.py`, `DutyStatusPeriod.DUTY_STATUS_CHOICES`). -/
inductive DutyStatus where
  | off_duty
  | sleeper_berth
  | driving
  | on_duty
  deriving DecidableEq, Repr

/-- Duty status period rows (`models.py`, class `DutyStatusPeriod`). -/
structure DutyStatusPeriod where
  duty_status : DutyStatus
  start_time : Nat
  end_time : Nat
  location : String
  city : String
  state : String
  activity_description : String
  vehicle_moved : Bool
  grid_start_minute : Nat
  grid_end_minute : Nat
  deriving DecidableEq, Repr

/-- Fuel stop generation (`views.py`, `TripPlanningView._generate_fuel_stops`):
`estimated_miles = trip.total_estimated_miles or 1000` (Python `or`: the
default 1000 is substituted exactly when the stored value is 0, the falsy
case), `fuel_stops_needed = estimated_miles // 1000 + 1`, and the i-th stop is
at `(i+1)*1000` capped at `estimated_miles`, with
`estimated_time = start_time + timedelta(hours=miles_from_start/60)`,
i.e. `miles_from_start` minutes after the trip start. -/
def generate_fuel_stops (trip : Trip) : List FuelStop :=
  let estimated_miles := if trip.total_estimated_miles = 0 then 1000 else trip.total_estimated_miles
  let fuel_stops_needed := estimated_miles / 1000 + 1
  (List.range fuel_stops_needed).map (fun i =>
    let miles_from_start :=
      if (i + 1) * 1000 > estimated_miles then estimated_miles else (i + 1) * 1000
    { location := "Fuel Stop " ++ toString (i + 1)
      miles_from_start := miles_from_start
      estimated_time := trip.start_time + miles_from_start
      fuel_needed := true })

/-- Serializer-side fuel stop count (`serializers.py`,
`TripSerializer.get_estimated_fuel_stops_count`): `miles // 1000 + 1` when
`total_estimated_miles > 0`, else 0. -/
def get_estimated_fuel_stops_count (trip : Trip) : Nat :=
  if trip.total_estimated_miles > 0 then trip.total_estimated_miles / 1000 + 1 else 0

/-- Route waypoints (`views.py`, `TripPlanningView._generate_route_waypoints`):
three `route`-typed waypoints at the current, pickup, and dropoff locations.
The trip's latitude/longitude fields are never set by the planning view, so
the `or Decimal("0.0")` fallbacks always yield 0. -/
def generate_route_waypoints (trip : Trip) : List RouteWaypoint :=
  [ { sequence := 1, location_name := trip.current_location, waypoint_type := "route"
      latitude := 0, longitude := 0 },
    { sequence := 2, location_name := trip.pickup_location, waypoint_type := "route"
      latitude := 0, longitude := 0 },
    { sequence := 3, location_name := trip.dropoff_location, waypoint_type := "route"
      latitude := 0, longitude := 0 } ]

/-- Rest break generation (`views.py`, `TripPlanningView._generate_rest_breaks`):
a fixed `30_min` break 8 hours (480 min) after trip start lasting until hour
8.5 (510 min), and a fixed `10_hour` rest from hour 14 (840 min) to hour 24
(1440 min). -/
def generate_rest_breaks (trip : Trip) : List RestBreak :=
  [ { break_type := "30_min", location := "30-Minute Break Location"
      scheduled_start := trip.start_time + 480, scheduled_end := trip.start_time + 510 },
    { break_type := "10_hour", location := "10-Hour Rest Location"
      scheduled_start := trip.start_time + 840, scheduled_end := trip.start_time + 1440 } ]

/-- Duty status period generation (`views.py`,
`TripPlanningView._generate_duty_status_periods`): two fixed periods anchored
at midnight of the log sheet's date — off duty from 00:00 to 06:00 at
"Home Base", and on duty from 06:00 to 06:30 at "Yard". -/
def generate_duty_status_periods (log_date : Nat) : List DutyStatusPeriod :=
  let start_time := midnightOf log_date
  [ { duty_status := .off_duty
      start_time := start_time, end_time := start_time + 360
      location := "Home Base", city := "Green Bay", state := "WI"
      activity_description := "Off duty", vehicle_moved := false
      grid_start_minute := 0, grid_end_minute := 360 },
    { duty_status := .on_duty
      start_time := start_time + 360, end_time := start_time + 390
      location := "Yard", city := "Green Bay", state := "WI"
      activity_description := "Pre-trip inspection", vehicle_moved := false
      grid_start_minute := 360, grid_end_minute := 390 } ]

/-- Log sheet generation (`views.py`,
`TripPlanningView._generate_eld_log_sheets`): a single sheet dated at the
trip's start date, with hardcoded totals (driving 8.0, on duty 2.0, off duty
4.0, sleeper berth 10.0, duty 10.0) and
`miles_driven = trip.total_estimated_miles or 500`; the remaining model fields
take their defaults (`hos_violation=False`, empty notes).  The view then
generates the duty status periods for the sheet. -/
def generate_eld_log_sheet (trip : Trip) : ELDLogSheet × List DutyStatusPeriod :=
  let sheet : ELDLogSheet :=
    { driver_id := trip.driver_id
      date := dateOf trip.start_time
      total_driving_time := 8
      total_on_duty_time := 2
      total_off_duty_time := 4
      total_sleeper_berth_time := 10
      total_duty_time := 10
      miles_driven := if trip.total_estimated_miles = 0 then 500 else trip.total_estimated_miles
      hos_violation := false
      violation_notes := "" }
  (sheet, generate_duty_status_periods sheet.date)

/-- Compliance warning check (`views.py`,
`TripPlanningView._check_compliance_warnings`): the only warning the code can
emit is "Approaching 70-hour limit", when the trip's cycle hours exceed 60. -/
def check_compliance_warnings (trip : Trip) : List String :=
  if trip.current_cycle_used_hours > 60 then ["Approaching 70-hour limit"] else []

/-- Trip duration estimate (`views.py`,
`TripPlanningView._calculate_trip_duration`): a fixed literal string. -/
def calculate_trip_duration (_trip : Trip) : String := "12 hours 30 minutes"

/-- Serializer-side compliance verdict (`serializers.py`,
`ELDLogSheetSerializer.get_hos_compliant`): `False` if driving time exceeds
11 or duty time exceeds 14, otherwise the negation of the stored
`hos_violation` flag.  This is a `SerializerMethodField`, computed on read;
it never writes back to the sheet. -/
def get_hos_compliant (sheet : ELDLogSheet) : Bool :=
  if sheet.total_driving_time > 11 then false
  else if sheet.total_duty_time > 14 then false
  else !sheet.hos_violation

/-- Serializer-side totals sum (`serializers.py`,
`ELDLogSheetSerializer.get_total_hours_check`): off duty + sleeper berth +
driving + on duty. -/
def get_total_hours_check (sheet : ELDLogSheet) : ℚ :=
  sheet.total_off_duty_time + sheet.total_sleeper_berth_time +
    sheet.total_driving_time + sheet.total_on_duty_time

/-- Serializer-side 24-hour check (`serializers.py`,
`ELDLogSheetSerializer.get_is_24_hour_total`): the totals sum to 24 within
a 0.01 tolerance. -/
def get_is_24_hour_total (sheet : ELDLogSheet) : Bool :=
  |get_total_hours_check sheet - 24| < 1 / 100

/-- Fixed map bounds (`views.py`, `TripPlanningView._calculate_map_bounds`). -/
structure MapBounds where
  north : ℚ
  south : ℚ
  east : ℚ
  west : ℚ
  deriving DecidableEq, Repr

/-- Map bounds computation (`views.py`): a fixed rectangle. -/
def calculate_map_bounds (_trip : Trip) : MapBounds :=
  { north := 45, south := 40, east := -85, west := -90 }

/-- The database tables the planning and lifecycle views touch.  A log sheet
is stored together with its owned `DutyStatusPeriod` rows (the `log_sheet`
foreign key of `models.py` inlined as composition). -/
structure DBState where
  drivers : List Nat
  vehicles : List Vehicle
  trips : List Trip
  log_sheets : List (ELDLogSheet × List DutyStatusPeriod)
  waypoints : List RouteWaypoint
  fuel_stops : List FuelStop
  rest_breaks : List RestBreak
  deriving DecidableEq, Repr

/-- Request body of `POST plan-trip` (`serializers.py`,
`TripPlanningInputSerializer` fields). -/
structure PlanInput where
  current_location : String
  pickup_location : String
  dropoff_location : String
  current_cycle_used_hours : ℚ
  driver_id : Nat
  truck_id : Nat
  trailer_id : Option Nat
  load_id : Option Nat
  deriving DecidableEq, Repr

/-- Outcome of `TripPlanningInputSerializer` validation: either the per-field
errors collected by the field-validation stage, or the first (and only)
message raised by the object-level `validate` method. -/
inductive ValidationFailure where
  | field_errors (fields : List String)
  | non_field_error (message : String)
  deriving DecidableEq, Repr

/-- Lookup of a vehicle row by primary key (`Vehicle.objects.get(id=...)`). -/
def findVehicle (s : DBState) (id : Nat) : Option Vehicle :=
  s.vehicles.find? (fun v => v.id = id)

/-- Input validation (`serializers.py`, `TripPlanningInputSerializer`).
Field stage: `current_cycle_used_hours` is a `DecimalField` with
`min_value=0, max_value=70` (the field errors are collected per field; with
one constrained field the list is at most a singleton).  Object stage (the
`validate` method, which raises at the first failing check): the driver must
exist; the truck reference must exist and have `vehicle_type == "truck"`; and
when a truthy `trailer_id` is supplied (Python `if data.get("trailer_id"):`,
so `some t` with `t ≠ 0`), it must exist and have `vehicle_type == "trailer"`.
String lengths and decimal-digit limits are not modelled. -/
def run_input_validation (s : DBState) (input : PlanInput) :
    Except ValidationFailure PlanInput :=
  if input.current_cycle_used_hours < 0 ∨ input.current_cycle_used_hours > 70 then
    .error (.field_errors ["current_cycle_used_hours"])
  else if ¬ input.driver_id ∈ s.drivers then
    .error (.non_field_error "Driver does not exist")
  else
    match findVehicle s input.truck_id with
    | none => .error (.non_field_error "Tractor does not exist")
    | some truck =>
      if truck.vehicle_type ≠ "truck" then
        .error (.non_field_error "Selected vehicle is not a truck")
      else
        match input.trailer_id with
        | some t =>
          if t ≠ 0 then
            match findVehicle s t with
            | none => .error (.non_field_error "Trailer does not exist")
            | some trailer =>
              if trailer.vehicle_type ≠ "trailer" then
                .error (.non_field_error "Selected vehicle is not a trailer")
              else .ok input
          else .ok input
        | none => .ok input

/-- Errors the `TripPlanningView.post` handler can answer with: a 400 carrying
the serializer errors, or the 400 conflict response
"Another trip has already been setup for today". -/
inductive PlanError where
  | validation_failed (failure : ValidationFailure)
  | conflict
  deriving DecidableEq, Repr

/-- The one-trip-per-driver-per-day conflict condition checked by
`TripPlanningView.post`: an existing trip of the driver whose `start_time`
falls on the current date, or an existing log sheet of the driver dated the
current date. -/
def hasTripConflict (s : DBState) (driver_id : Nat) (today : Nat) : Prop :=
  (∃ t ∈ s.trips, t.driver_id = driver_id ∧ dateOf t.start_time = today) ∨
    (∃ p ∈ s.log_sheets, p.1.driver_id = driver_id ∧ p.1.date = today)

instance (s : DBState) (driver_id today : Nat) :
    Decidable (hasTripConflict s driver_id today) := by
  unfold hasTripConflict; infer_instance

/-- The `Trip.objects.create(...)` call of `TripPlanningView.post`: the
validated inputs plus `start_time=timezone.now()` and `status="planned"`;
every other field keeps its model default (in particular
`total_estimated_miles` defaults to 0).  The view passes the tractor
reference under the keyword `truck_id`; the model field is `tractor`. -/
def mkPlannedTrip (input : PlanInput) (now : Nat) : Trip :=
  { driver_id := input.driver_id
    tractor_id := input.truck_id
    trailer_id := input.trailer_id
    load_id := input.load_id
    current_location := input.current_location
    pickup_location := input.pickup_location
    dropoff_location := input.dropoff_location
    current_cycle_used_hours := input.current_cycle_used_hours
    start_time := now
    estimated_end_time := none
    actual_end_time := none
    total_estimated_miles := 0
    total_actual_miles := 0
    status := .planned }

/-- Response bundle of a successful `POST plan-trip`
(`TripPlanningView.post`, `response_data`). -/
structure PlanBundle where
  trip : Trip
  route_waypoints : List RouteWaypoint
  fuel_stops : List FuelStop
  rest_breaks : List RestBreak
  log_sheets : List (ELDLogSheet × List DutyStatusPeriod)
  total_estimated_duration : String
  estimated_arrival : Option Nat
  compliance_warnings : List String
  map_bounds : MapBounds
  deriving DecidableEq, Repr

/-- The response bundle a successful `TripPlanningView.post` assembles for
the trip created from `input` at time `now` (the `response_data` dictionary). -/
def planSuccessBundle (input : PlanInput) (now : Nat) : PlanBundle :=
  let trip := mkPlannedTrip input now
  { trip := trip
    route_waypoints := generate_route_waypoints trip
    fuel_stops := generate_fuel_stops trip
    rest_breaks := generate_rest_breaks trip
    log_sheets := [generate_eld_log_sheet trip]
    total_estimated_duration := calculate_trip_duration trip
    estimated_arrival := trip.estimated_end_time
    compliance_warnings := check_compliance_warnings trip
    map_bounds := calculate_map_bounds trip }

/-- The database state after the record creations of a successful
`TripPlanningView.post` starting from state `s`. -/
def planSuccessState (s : DBState) (input : PlanInput) (now : Nat) : DBState :=
  let trip := mkPlannedTrip input now
  { s with
    trips := s.trips ++ [trip]
    log_sheets := s.log_sheets ++ [generate_eld_log_sheet trip]
    waypoints := s.waypoints ++ generate_route_waypoints trip
    fuel_stops := s.fuel_stops ++ generate_fuel_stops trip
    rest_breaks := s.rest_breaks ++ generate_rest_breaks trip }

/-- Body of `TripPlanningView.post` inside `transaction.atomic`: validate,
check the one-trip-per-day conflict, create the trip, generate waypoints,
fuel stops, rest breaks and the log sheet with its duty periods, and assemble
the response bundle.  Returns the bundle together with the updated database
state. -/
def planTripAux (s : DBState) (input : PlanInput) (now : Nat) :
    Except PlanError (PlanBundle × DBState) := do
  let validated ← (run_input_validation s input).mapError .validation_failed
  let today := dateOf now
  if hasTripConflict s validated.driver_id today then
    throw .conflict
  else
    return (planSuccessBundle validated now, planSuccessState s validated now)

/-- The full `POST plan-trip` handler: `planTripAux` run under
`transaction.atomic` — on any failure every record created inside the block
is rolled back, so the database state reverts to the initial one. -/
def planTrip (s : DBState) (input : PlanInput) (now : Nat) :
    Except PlanError PlanBundle × DBState :=
  match planTripAux s input now with
  | .ok (bundle, s') => (.ok bundle, s')
  | .error e => (.error e, s)

/-- Error answered by the trip lifecycle actions when the trip is not in the
state the transition requires (`views.py`, HTTP 400 with the quoted message). -/
inductive LifecycleError where
  | invalid_state (message : String)
  deriving DecidableEq, Repr

/-- The log sheet created by `start_trip`
(`ELDLogSheet.objects.create(trip=trip, driver=trip.driver, date=...)`):
every total keeps its model default of 0, and no duty status period is
created for it. -/
def initialLogSheet (trip : Trip) (today : Nat) : ELDLogSheet :=
  { driver_id := trip.driver_id
    date := today
    total_off_duty_time := 0
    total_sleeper_berth_time := 0
    total_driving_time := 0
    total_on_duty_time := 0
    total_duty_time := 0
    miles_driven := 0
    hos_violation := false
    violation_notes := "" }

/-- The log sheet table already holds a sheet for the given driver and date
(the `unique_together = ["driver", "date"]` constraint of `models.py`
rejects an insert exactly when this holds). -/
def hasLogSheetFor (log_sheets : List (ELDLogSheet × List DutyStatusPeriod))
    (driver_id date : Nat) : Prop :=
  ∃ p ∈ log_sheets, p.1.driver_id = driver_id ∧ p.1.date = date

instance (log_sheets : List (ELDLogSheet × List DutyStatusPeriod))
    (driver_id date : Nat) : Decidable (hasLogSheetFor log_sheets driver_id date) := by
  unfold hasLogSheetFor; infer_instance

/-- The three ways `TripViewSet.start_trip` can answer: the 200 success, the
400 invalid-state response, or the unhandled `IntegrityError` raised by
`ELDLogSheet.objects.create` (an HTTP 500; the view has no try/except and no
transaction around it). -/
inductive StartTripResponse where
  | ok
  | invalid_state (message : String)
  | integrity_error
  deriving DecidableEq, Repr

/-- The `start_trip` action (`views.py`, `TripViewSet.start_trip`): requires
`status == "planned"`; then `trip.save()` sets the status to `in_progress`
and resets `start_time` to now, and `ELDLogSheet.objects.create` inserts the
initial log sheet (with no duty status periods).  The create call runs under
the `unique_together = ["driver", "date"]` constraint of `models.py`: when
the driver already has a log sheet dated the current date it raises an
unhandled `IntegrityError` — after `trip.save()` has already been committed,
so the trip is left `in_progress` while no sheet is created.  The result is
the response together with the trip row and log sheet table as the database
holds them afterwards. -/
def start_trip (trip : Trip) (log_sheets : List (ELDLogSheet × List DutyStatusPeriod))
    (now : Nat) :
    StartTripResponse × Trip × List (ELDLogSheet × List DutyStatusPeriod) :=
  if trip.status ≠ .planned then
    (.invalid_state "Trip must be in planned status to start", trip, log_sheets)
  else
    let trip' := { trip with status := .in_progress, start_time := now }
    if hasLogSheetFor log_sheets trip.driver_id (dateOf now) then
      (.integrity_error, trip', log_sheets)
    else
      (.ok, trip', log_sheets ++ [(initialLogSheet trip (dateOf now), [])])

/-- The `complete_trip` action (`views.py`, `TripViewSet.complete_trip`):
requires `status == "in_progress"`, then sets the status to `completed` and
records `actual_end_time`. -/
def complete_trip (trip : Trip) (now : Nat) : Except LifecycleError Trip :=
  if trip.status ≠ .in_progress then
    .error (.invalid_state "Trip must be in progress to complete")
  else
    .ok { trip with status := .completed, actual_end_time := some now }

/-- A period list is sorted by start time. -/
def periodsSortedByStart (ps : List DutyStatusPeriod) : Prop :=
  ps.Chain' (fun a b => a.start_time ≤ b.start_time)

/-- Consecutive periods of a (sorted) period list do not overlap: each ends
no later than the next begins. -/
def periodsNonOverlapping (ps : List DutyStatusPeriod) : Prop :=
  ps.Chain' (fun a b => a.end_time ≤ b.start_time)

/-- Minute `m` (since the epoch) falls inside one of the periods. -/
def coversMinute (ps : List DutyStatusPeriod) (m : Nat) : Prop :=
  ∃ p ∈ ps, p.start_time ≤ m ∧ m < p.end_time

instance (ps : List DutyStatusPeriod) (m : Nat) : Decidable (coversMinute ps m) := by
  unfold coversMinute; infer_instance

/-- The period list covers every minute of day `d`, from midnight to the
next midnight. -/
def coversFullDay (ps : List DutyStatusPeriod) (d : Nat) : Prop :=
  ∀ m, midnightOf d ≤ m → m < midnightOf (d + 1) → coversMinute ps m

/-- The fields of `ELDLogSheetSerializer` output that concern compliance:
the stored `hos_violation` and `violation_notes` are passed through
unchanged, and the three `SerializerMethodField`s are computed on read.
No code path in the repository writes `hos_violation` or `violation_notes`
back to the store (both keep their `models.py` defaults unless supplied
directly by a client through the CRUD endpoint). -/
structure LogSheetView where
  hos_violation : Bool
  violation_notes : String
  total_hours_check : ℚ
  is_24_hour_total : Bool
  hos_compliant : Bool
  deriving DecidableEq, Repr

/-- Read path of `ELDLogSheetSerializer` (compliance-related fields). -/
def serialize_log_sheet (sheet : ELDLogSheet) : LogSheetView :=
  { hos_violation := sheet.hos_violation
    violation_notes := sheet.violation_notes
    total_hours_check := get_total_hours_check sheet
    is_24_hour_total := get_is_24_hour_total sheet
    hos_compliant := get_hos_compliant sheet }

/-- The object-level `validate` method returns the data it was given:
a successful validation yields the input unchanged. -/
theorem run_input_validation_ok_eq (s : DBState) (i v : PlanInput)
    (h : run_input_validation s i = .ok v) : v = i := by
  unfold run_input_validation at h
  repeat first
    | (split at h; try simp_all)
    | simp_all

/-- Execution of `planTrip` split by its three outcomes: validation failure,
conflict, success. -/
theorem planTrip_eq (s : DBState) (input : PlanInput) (now : Nat) :
    planTrip s input now =
      match run_input_validation s input with
      | .error f => (.error (.validation_failed f), s)
      | .ok v =>
        if hasTripConflict s v.driver_id (dateOf now) then (.error .conflict, s)
        else (.ok (planSuccessBundle v now), planSuccessState s v now) := by
  unfold planTrip planTripAux
  cases h : run_input_validation s input with
  | error f => simp [Except.mapError, Bind.bind, Except.bind]
  | ok v =>
    simp only [Except.mapError, Bind.bind, Except.bind]
    by_cases hc : hasTripConflict s v.driver_id (dateOf now)
    · simp [hc, throw, throwThe, MonadExceptOf.throw]
    · simp [hc, pure, Except.pure]

/-- Success characterization of `planTrip`: it answers 201 with a bundle
exactly when validation passes and the driver has no trip or log sheet for
the current date, and then the bundle and the new state are the generated
ones. -/
theorem planTrip_ok_iff (s : DBState) (input : PlanInput) (now : Nat)
    (b : PlanBundle) :
    (planTrip s input now).1 = .ok b ↔
      (run_input_validation s input = .ok input ∧
        ¬ hasTripConflict s input.driver_id (dateOf now) ∧
        b = planSuccessBundle input now) := by
  rw [planTrip_eq]
  cases h : run_input_validation s input with
  | error f => simp_all
  | ok v =>
    have hv := run_input_validation_ok_eq s input v h
    subst hv
    by_cases hc : hasTripConflict s v.driver_id (dateOf now)
    · simp [hc, h]
    · simp [hc, h, eq_comm]

/-- On success the state is the generated one. -/
theorem planTrip_ok_state (s : DBState) (input : PlanInput) (now : Nat)
    (b : PlanBundle) (h : (planTrip s input now).1 = .ok b) :
    (planTrip s input now).2 = planSuccessState s input now := by
  rw [planTrip_eq] at h ⊢
  cases hv : run_input_validation s input with
  | error f => rw [hv] at h; simp_all
  | ok v =>
    have he := run_input_validation_ok_eq s input v hv
    subst he
    by_cases hc : hasTripConflict s v.driver_id (dateOf now)
    · simp [hv, hc] at h
    · simp [hv, hc]

/-- Example vehicle stored with the type string "truck" (reachable in the
store, whose `vehicle_type` column is an unconstrained `CharField`; it is the
only type the planning validation accepts for the truck role). -/
def exTruck : Vehicle := { id := 1, vehicle_type := "truck", is_active := true }

/-- Example vehicle of type "tractor", the tractor-role type declared by
`Vehicle.VEHICLE_TYPES` in `models.py`. -/
def exTractor : Vehicle := { id := 2, vehicle_type := "tractor", is_active := true }

/-- Example database: one driver and the two example vehicles, no trips or
log sheets yet. -/
def exState : DBState :=
  { drivers := [1], vehicles := [exTruck, exTractor], trips := [], log_sheets := [],
    waypoints := [], fuel_stops := [], rest_breaks := [] }

/-- Example planning request (valid fields, 45 cycle hours used). -/
def exInput : PlanInput :=
  { current_location := "Chicago", pickup_location := "Detroit",
    dropoff_location := "Atlanta", current_cycle_used_hours := 45,
    driver_id := 1, truck_id := 1, trailer_id := none, load_id := none }

/-- Example clock: minute 2880 since the epoch, i.e. midnight of day 2. -/
def exNow : Nat := 2880

/-- The planned trip the example request creates. -/
def exPlannedTrip : Trip := mkPlannedTrip exInput exNow

/-- A trip with exactly 1000 estimated miles (the spec's one-stop example). -/
def exTrip1000 : Trip := { exPlannedTrip with total_estimated_miles := 1000 }

/-- A trip with 2500 estimated miles (the spec's three-stop example). -/
def exTrip2500 : Trip := { exPlannedTrip with total_estimated_miles := 2500 }

/-- C1 counterexample: for `estimatedMiles = 1000` the claim demands exactly
`ceil(1000/1000) = 1` fuel stop at mile 1000, but `_generate_fuel_stops`
computes `1000 // 1000 + 1 = 2` stops, both at mile 1000 (the second one is
the `(i+1)*1000 = 2000` stop capped down to 1000); the serializer's
`get_estimated_fuel_stops_count` agrees on the count 2. -/
theorem fuel_stops_at_1000_miles_counterexample :
    exTrip1000.total_estimated_miles = 1000 ∧
    (generate_fuel_stops exTrip1000).map FuelStop.miles_from_start = [1000, 1000] ∧
    (generate_fuel_stops exTrip1000).length ≠ 1 ∧
    get_estimated_fuel_stops_count exTrip1000 = 2 := by decide

/-- C1 amended: for every trip with `estimatedMiles > 0`, fuel-stop
generation creates exactly `floor(estimatedMiles / 1000) + 1` FuelStop
records (one more than `ceil` at exact multiples of 1000), the i-th at
`milesFromStart = min((i+1)*1000, estimatedMiles)`; in particular
`estimatedMiles = 2500` yields 3 stops at miles 1000, 2000, 2500, and
`estimatedMiles = 1000` yields 2 stops, both at mile 1000. -/
theorem fuel_stops_floor_count_amended (trip : Trip)
    (h : 0 < trip.total_estimated_miles) :
    (generate_fuel_stops trip).length = trip.total_estimated_miles / 1000 + 1 ∧
    (∀ i (hi : i < (generate_fuel_stops trip).length),
      ((generate_fuel_stops trip).get ⟨i, hi⟩).miles_from_start =
        min ((i + 1) * 1000) trip.total_estimated_miles) ∧
    get_estimated_fuel_stops_count trip = trip.total_estimated_miles / 1000 + 1 := by
  have hm : trip.total_estimated_miles ≠ 0 := Nat.pos_iff_ne_zero.mp h
  refine ⟨?_, ?_, ?_⟩
  · simp [generate_fuel_stops, hm]
  · intro i hi
    simp only [generate_fuel_stops, hm, if_false, List.get_eq_getElem,
      List.getElem_map, List.getElem_range]
    split <;> omega
  · simp [get_estimated_fuel_stops_count, h]

/-- C1 amended witness: the 2500-mile trip gets exactly 3 fuel stops, at
miles 1000, 2000 and 2500. -/
theorem fuel_stops_floor_count_witness :
    (generate_fuel_stops exTrip2500).length = 3 ∧
    (generate_fuel_stops exTrip2500).map FuelStop.miles_from_start = [1000, 2000, 2500] := by
  have h := fuel_stops_floor_count_amended exTrip2500 (by decide)
  exact ⟨by simpa using h.1, by decide⟩

/-- Example database in which driver 1 already has a trip starting on day 2
(the current date of `exNow`). -/
def exConflictState : DBState := { exState with trips := [exPlannedTrip] }

/-- C2: if the request passes input validation but the driver already has a
trip starting on, or a log sheet dated, the current date, `planTrip` answers
the conflict error; and whenever `planTrip` fails for any reason, the
database state is exactly the initial one (the `transaction.atomic` block
rolls every created record back), so no Trip, Waypoint, FuelStop, RestBreak
or ELDLogSheet record persists. -/
theorem planTrip_conflict_and_atomicity (s : DBState) (input : PlanInput) (now : Nat) :
    (run_input_validation s input = .ok input →
      hasTripConflict s input.driver_id (dateOf now) →
      (planTrip s input now).1 = .error .conflict) ∧
    (∀ e, (planTrip s input now).1 = .error e → (planTrip s input now).2 = s) := by
  constructor
  · intro hval hconf
    rw [planTrip_eq, hval]
    simp [hconf]
  · intro e he
    rw [planTrip_eq] at he ⊢
    cases hv : run_input_validation s input with
    | error f => simp [hv]
    | ok v =>
      have hve := run_input_validation_ok_eq s input v hv
      subst hve
      by_cases hc : hasTripConflict s v.driver_id (dateOf now)
      · simp [hv, hc]
      · simp [hv, hc] at he

/-- C2 witness: the example conflicting request is rejected with the conflict
error and leaves the database untouched. -/
theorem planTrip_conflict_witness :
    (planTrip exConflictState exInput exNow).1 = .error .conflict ∧
    (planTrip exConflictState exInput exNow).2 = exConflictState := by
  have h := planTrip_conflict_and_atomicity exConflictState exInput exNow
  exact ⟨h.1 (by decide) (by decide), h.2 .conflict (h.1 (by decide) (by decide))⟩

/-- The log sheet the example planning request produces. -/
def exPlannedSheet : ELDLogSheet := (generate_eld_log_sheet exPlannedTrip).1

/-- The duty status periods the example planning request produces. -/
def exPlannedPeriods : List DutyStatusPeriod := (generate_eld_log_sheet exPlannedTrip).2

/-- C3 counterexample: the example planning request succeeds and its one log
sheet carries exactly the two canned duty periods, which leave minute 390
(06:30) of the log date uncovered — so the periods do not cover the 24-hour
day, refuting the coverage half of the claim at a concrete produced log. -/
theorem daily_log_coverage_counterexample :
    (planTrip exState exInput exNow).1 = Except.ok (planSuccessBundle exInput exNow) ∧
    (planSuccessBundle exInput exNow).log_sheets = [(exPlannedSheet, exPlannedPeriods)] ∧
    ¬ coversMinute exPlannedPeriods (midnightOf exPlannedSheet.date + 390) ∧
    ¬ coversFullDay exPlannedPeriods exPlannedSheet.date := by
  refine ⟨by decide, by decide, by decide, ?_⟩
  intro hcov
  exact absurd (hcov (midnightOf exPlannedSheet.date + 390) (by decide) (by decide)) (by decide)

/-- C3 amended: for every log sheet produced by a successful `planTrip`, the
duty periods are sorted by start time and non-overlapping, but they cover
exactly the minutes from midnight to 06:30 (390 minutes) of the log date,
not the full 24 hours; the four stored per-status totals nonetheless sum to
exactly 24.00 hours, because they are hardcoded constants (4 + 10 + 8 + 2)
rather than being derived from the periods. -/
theorem daily_log_periods_amended (s : DBState) (input : PlanInput) (now : Nat)
    (b : PlanBundle) (h : (planTrip s input now).1 = .ok b) :
    ∀ p ∈ b.log_sheets,
      periodsSortedByStart p.2 ∧ periodsNonOverlapping p.2 ∧
      (∀ m, coversMinute p.2 m ↔
        midnightOf p.1.date ≤ m ∧ m < midnightOf p.1.date + 390) ∧
      get_total_hours_check p.1 = 24 ∧ get_is_24_hour_total p.1 = true := by
  obtain ⟨hval, hconf, rfl⟩ := (planTrip_ok_iff s input now b).mp h
  intro p hp
  simp only [planSuccessBundle, List.mem_singleton] at hp
  subst hp
  refine ⟨?_, ?_, ?_, ?_, ?_⟩
  · simp [generate_eld_log_sheet, generate_duty_status_periods, periodsSortedByStart]
  · simp [generate_eld_log_sheet, generate_duty_status_periods, periodsNonOverlapping]
  · intro m
    simp [generate_eld_log_sheet, generate_duty_status_periods, coversMinute,
      midnightOf, dateOf, mkPlannedTrip]
    omega
  · norm_num [generate_eld_log_sheet, get_total_hours_check]
  · norm_num [generate_eld_log_sheet, get_total_hours_check, get_is_24_hour_total]

/-- C3 amended witness: the example run's log sheet has sorted periods and
its stored totals sum to 24, while minute 390 of the day is not covered. -/
theorem daily_log_periods_amended_witness :
    periodsSortedByStart exPlannedPeriods ∧
    get_total_hours_check exPlannedSheet = 24 ∧
    ¬ coversMinute exPlannedPeriods (midnightOf exPlannedSheet.date + 390) := by
  have h := daily_log_periods_amended exState exInput exNow
    (planSuccessBundle exInput exNow) (by decide)
  have h2 := h (exPlannedSheet, exPlannedPeriods) (by decide)
  exact ⟨h2.1, h2.2.2.2.1, by decide⟩

/-- A log sheet whose driving total is 11.5 hours (the rational 23/2), with
`hos_violation` at its stored default `false` — the shape the claim's
example describes; such a sheet is client-creatable through the log-sheet
CRUD endpoint, whose serializer accepts the totals directly. -/
def exViolSheet : ELDLogSheet :=
  { driver_id := 1, date := 2
    total_off_duty_time := 5, total_sleeper_berth_time := 5
    total_driving_time := (⟨23, 2, by decide, by decide⟩ : ℚ)
    total_on_duty_time := (⟨5, 2, by decide, by decide⟩ : ℚ)
    total_duty_time := 14
    miles_driven := 600, hos_violation := false, violation_notes := "" }

/-- C4 counterexample: for the 11.5-hour-driving log sheet, the code's entire
rule evaluation (the read-only serializer pass) leaves `hos_violation`
at `false` and the violation notes empty — no `DRIVING_LIMIT_EXCEEDED`
entry is recorded and the flag is not set, refuting the claim at this
concrete log.  (`serializers.py` computes `hos_compliant` on read; no code
path in the repository writes `hos_violation` or a violation list.) -/
theorem driving_limit_violation_counterexample :
    exViolSheet.total_driving_time > 11 ∧
    ¬ ((serialize_log_sheet exViolSheet).hos_violation = true ∧
      (serialize_log_sheet exViolSheet).violation_notes ≠ "") := by decide

/-- C4 amended: for every log sheet whose driving total exceeds 11 hours,
the serializer reports `hos_compliant = false`, but the stored
`hos_violation` flag and `violation_notes` pass through unchanged (nothing
sets them), and the only compliance warning the planner can ever emit is
"Approaching 70-hour limit" — never `DRIVING_LIMIT_EXCEEDED`. -/
theorem driving_limit_not_compliant_amended (sheet : ELDLogSheet)
    (h : sheet.total_driving_time > 11) :
    (serialize_log_sheet sheet).hos_compliant = false ∧
    (serialize_log_sheet sheet).hos_violation = sheet.hos_violation ∧
    (serialize_log_sheet sheet).violation_notes = sheet.violation_notes ∧
    ∀ (trip : Trip) (w : String), w ∈ check_compliance_warnings trip →
      w = "Approaching 70-hour limit" := by
  refine ⟨?_, rfl, rfl, ?_⟩
  · simp [serialize_log_sheet, get_hos_compliant, h]
  · intro trip w hw
    unfold check_compliance_warnings at hw
    split at hw <;> simp_all

/-- C4 amended witness: the 11.5-hour sheet is reported non-compliant. -/
theorem driving_limit_not_compliant_witness :
    (serialize_log_sheet exViolSheet).hos_compliant = false := by
  have h := driving_limit_not_compliant_amended exViolSheet (by decide)
  exact h.1

/-- A log sheet table holding a sheet for driver 1 dated day 3 — exactly
what a `planTrip` run on day 3 leaves behind for the example trip's driver. -/
def exSameDayLogs : List (ELDLogSheet × List DutyStatusPeriod) :=
  [(initialLogSheet exPlannedTrip 3, [])]

/-- C5 counterexample: the example trip is `planned`, yet starting it at
minute 5000 (day 3) with the driver already holding a day-3 log sheet does
not succeed — `ELDLogSheet.objects.create` violates the
`unique_together = ["driver", "date"]` constraint and raises an unhandled
`IntegrityError`, not the invalid-state error; and this failure does not
leave the trip unchanged: the trip was already saved as `in_progress`.
This refutes both "start succeeds if and only if the status is Planned" and
"in every other state each operation fails with InvalidStateError and
leaves the trip unchanged". -/
theorem trip_lifecycle_same_day_start_counterexample :
    exPlannedTrip.status = .planned ∧
    (start_trip exPlannedTrip exSameDayLogs 5000).1 ≠ .ok ∧
    (start_trip exPlannedTrip exSameDayLogs 5000).1 = .integrity_error ∧
    (start_trip exPlannedTrip exSameDayLogs 5000).2.1 ≠ exPlannedTrip ∧
    (start_trip exPlannedTrip exSameDayLogs 5000).2.1.status = .in_progress ∧
    (start_trip exPlannedTrip exSameDayLogs 5000).2.2 = exSameDayLogs := by decide

/-- C5 amended: `start_trip` succeeds exactly when the trip is `planned` AND
the driver has no existing daily log dated the current date; on success it
sets the status to `in_progress` and creates the trip's first daily log
sheet.  When the status is not `planned` it fails with the invalid-state
error and leaves the trip unchanged; but when the status is `planned` and a
same-date log already exists, it fails with an unhandled `IntegrityError`
and leaves the trip already saved as `in_progress` (no log sheet created).
`complete_trip` succeeds exactly when the trip is `in_progress`, and then
sets the status to `completed` and records `actual_end_time`; in every other
state it fails with the invalid-state error and leaves the trip unchanged. -/
theorem trip_lifecycle_state_machine_amended (trip : Trip)
    (logs : List (ELDLogSheet × List DutyStatusPeriod)) (now : Nat) :
    ((start_trip trip logs now).1 = .ok ↔
      (trip.status = .planned ∧ ¬ hasLogSheetFor logs trip.driver_id (dateOf now))) ∧
    (trip.status = .planned → ¬ hasLogSheetFor logs trip.driver_id (dateOf now) →
      start_trip trip logs now =
        (.ok, { trip with status := .in_progress, start_time := now },
          logs ++ [(initialLogSheet trip (dateOf now), [])])) ∧
    (trip.status ≠ .planned →
      start_trip trip logs now =
        (.invalid_state "Trip must be in planned status to start", trip, logs)) ∧
    (trip.status = .planned → hasLogSheetFor logs trip.driver_id (dateOf now) →
      start_trip trip logs now =
        (.integrity_error, { trip with status := .in_progress, start_time := now },
          logs)) ∧
    ((∃ t, complete_trip trip now = .ok t) ↔ trip.status = .in_progress) ∧
    (trip.status = .in_progress →
      complete_trip trip now =
        .ok { trip with status := .completed, actual_end_time := some now }) ∧
    (trip.status ≠ .in_progress →
      complete_trip trip now =
        .error (.invalid_state "Trip must be in progress to complete")) := by
  unfold start_trip complete_trip
  by_cases h1 : trip.status = .planned <;>
    by_cases h2 : trip.status = .in_progress <;>
      by_cases h3 : hasLogSheetFor logs trip.driver_id (dateOf now) <;> simp_all

/-- C5 amended witness: starting the example planned trip with an empty log
table succeeds and creates its first log sheet, while completing it (still
`planned`) fails with the invalid-state error. -/
theorem trip_lifecycle_amended_witness :
    start_trip exPlannedTrip [] 5000 =
      (.ok, { exPlannedTrip with status := .in_progress, start_time := 5000 },
        [(initialLogSheet exPlannedTrip 3, [])]) ∧
    complete_trip exPlannedTrip 5000 =
      .error (.invalid_state "Trip must be in progress to complete") := by
  have h := trip_lifecycle_state_machine_amended exPlannedTrip [] 5000
  exact ⟨by simpa using h.2.1 (by decide) (by decide), h.2.2.2.2.2.2 (by decide)⟩

/-- The planning request referencing the tractor-typed vehicle (id 2) in the
truck role. -/
def exTractorInput : PlanInput := { exInput with truck_id := 2 }

/-- C6: the failing input — a request whose `truck_id` references an existing
vehicle of type "tractor", the very tractor-role type `models.py` declares
(`VEHICLE_TYPES`, and `Trip.tractor` is declared with
`limit_choices_to={"vehicle_type": "tractor"}`).  The claim says such a
request passes the vehicle-type validation; the code instead demands
`vehicle_type == "truck"`, a value outside the model's own choices, so the
request is rejected with "Selected vehicle is not a truck" and `planTrip`
fails.  No vehicle satisfying the declared choices can ever pass the truck
check ("truck" is not among VEHICLE_TYPES). -/
theorem tractor_role_validation_bug :
    exTractor.vehicle_type ∈ VEHICLE_TYPES ∧
    run_input_validation exState exTractorInput =
      .error (.non_field_error "Selected vehicle is not a truck") ∧
    (planTrip exState exTractorInput exNow).1 =
      .error (.validation_failed (.non_field_error "Selected vehicle is not a truck")) ∧
    ¬ ("truck" ∈ VEHICLE_TYPES) := by decide

/-- C7: the success of `planTrip` is characterized by input validation and
the one-trip-per-day check alone — no regulatory limit appears in the
success condition, so exceeding a driving/duty/break/cycle limit can never
make planning fail; and on every success the compliance warnings are
returned as data in the bundle (in particular, a trip with more than 60
cycle hours still succeeds and carries the "Approaching 70-hour limit"
warning in `complianceWarnings` instead of raising). -/
theorem regulatory_warnings_never_fail (s : DBState) (input : PlanInput) (now : Nat) :
    ((∃ b, (planTrip s input now).1 = .ok b) ↔
      (run_input_validation s input = .ok input ∧
        ¬ hasTripConflict s input.driver_id (dateOf now))) ∧
    (∀ b, (planTrip s input now).1 = .ok b →
      b.compliance_warnings = check_compliance_warnings b.trip ∧
      (b.trip.current_cycle_used_hours > 60 →
        b.compliance_warnings = ["Approaching 70-hour limit"])) := by
  constructor
  · constructor
    · rintro ⟨b, hb⟩
      have hc := (planTrip_ok_iff s input now b).mp hb
      exact ⟨hc.1, hc.2.1⟩
    · rintro ⟨hval, hconf⟩
      exact ⟨planSuccessBundle input now,
        (planTrip_ok_iff s input now _).mpr ⟨hval, hconf, rfl⟩⟩
  · intro b hb
    obtain ⟨hval, hconf, rfl⟩ := (planTrip_ok_iff s input now b).mp hb
    refine ⟨rfl, ?_⟩
    intro hgt
    have hgt2 : (mkPlannedTrip input now).current_cycle_used_hours > 60 := hgt
    show check_compliance_warnings (mkPlannedTrip input now) = _
    unfold check_compliance_warnings
    rw [if_pos hgt2]

/-- The example request with 65 cycle hours already used (over the 60-hour
warning threshold, inside the validated range). -/
def exInput65 : PlanInput := { exInput with current_cycle_used_hours := 65 }

/-- C7 witness: the 65-cycle-hour request succeeds, and its bundle carries
the warning as data. -/
theorem regulatory_warnings_witness :
    (∃ b, (planTrip exState exInput65 exNow).1 = .ok b) ∧
    (planSuccessBundle exInput65 exNow).compliance_warnings =
      ["Approaching 70-hour limit"] := by
  have h := regulatory_warnings_never_fail exState exInput65 exNow
  refine ⟨h.1.mpr ⟨by decide, by decide⟩, ?_⟩
  exact (h.2 (planSuccessBundle exInput65 exNow) (by decide)).2 (by decide)

/-- The fuel stops generated for every trip the planner creates: the trip's
`total_estimated_miles` is its default 0, `_generate_fuel_stops` substitutes
1000 for the falsy 0, computes `1000 // 1000 + 1 = 2` stops, and caps the
second stop's `2000` down to `1000`. -/
theorem generate_fuel_stops_planned (input : PlanInput) (now : Nat) :
    (generate_fuel_stops (mkPlannedTrip input now)).map FuelStop.miles_from_start =
      [1000, 1000] := by
  simp [generate_fuel_stops, mkPlannedTrip, List.range_succ]

/-- C8: every successful `planTrip` creates its trip with
`total_estimated_miles` at the model default 0, so fuel-stop generation
substitutes 1000 miles and exactly two FuelStop records are created, both
with `miles_from_start = 1000`. -/
theorem planned_trip_default_miles_two_stops (s : DBState) (input : PlanInput)
    (now : Nat) (b : PlanBundle) (h : (planTrip s input now).1 = .ok b) :
    b.trip.total_estimated_miles = 0 ∧
    b.fuel_stops.length = 2 ∧
    ∀ fs ∈ b.fuel_stops, fs.miles_from_start = 1000 := by
  obtain ⟨hval, hconf, rfl⟩ := (planTrip_ok_iff s input now b).mp h
  refine ⟨rfl, ?_, ?_⟩
  · show (generate_fuel_stops (mkPlannedTrip input now)).length = 2
    rw [← List.length_map _ FuelStop.miles_from_start, generate_fuel_stops_planned]
    rfl
  · intro fs hfs
    have hmem : fs.miles_from_start ∈
        (generate_fuel_stops (mkPlannedTrip input now)).map FuelStop.miles_from_start :=
      List.mem_map_of_mem _ hfs
    rw [generate_fuel_stops_planned] at hmem
    simpa using hmem

/-- C8 witness: the example run's bundle has two fuel stops, both at mile
1000, on a trip with 0 estimated miles. -/
theorem planned_trip_default_miles_witness :
    (planSuccessBundle exInput exNow).trip.total_estimated_miles = 0 ∧
    (planSuccessBundle exInput exNow).fuel_stops.length = 2 := by
  have h := planned_trip_default_miles_two_stops exState exInput exNow
    (planSuccessBundle exInput exNow) (by decide)
  exact ⟨h.1, h.2.1⟩

/-- C9: whenever starting a planned trip creates its log sheet (i.e. the
driver has no same-date sheet, so `ELDLogSheet.objects.create` succeeds),
the created sheet has all four per-status totals 0 (the model defaults) and
owns no duty status period (the paired period list is empty), so the totals
sum to 0 hours, not 24. -/
theorem start_trip_initial_log_zero_totals (trip : Trip)
    (logs : List (ELDLogSheet × List DutyStatusPeriod)) (now : Nat)
    (h : trip.status = .planned)
    (hfree : ¬ hasLogSheetFor logs trip.driver_id (dateOf now)) :
    start_trip trip logs now =
      (.ok, { trip with status := .in_progress, start_time := now },
        logs ++ [(initialLogSheet trip (dateOf now), [])]) ∧
    (initialLogSheet trip (dateOf now)).total_off_duty_time = 0 ∧
    (initialLogSheet trip (dateOf now)).total_sleeper_berth_time = 0 ∧
    (initialLogSheet trip (dateOf now)).total_driving_time = 0 ∧
    (initialLogSheet trip (dateOf now)).total_on_duty_time = 0 ∧
    get_total_hours_check (initialLogSheet trip (dateOf now)) = 0 ∧
    get_total_hours_check (initialLogSheet trip (dateOf now)) ≠ 24 := by
  refine ⟨by simp [start_trip, h, hfree], rfl, rfl, rfl, rfl,
    by norm_num [get_total_hours_check, initialLogSheet],
    by norm_num [get_total_hours_check, initialLogSheet]⟩

/-- C9 witness: starting the example planned trip over an empty log table
succeeds, and the created log sheet has all-zero totals. -/
theorem start_trip_initial_log_witness :
    (start_trip exPlannedTrip [] 5000).1 = .ok ∧
    get_total_hours_check (initialLogSheet exPlannedTrip (dateOf 5000)) = 0 ∧
    get_total_hours_check (initialLogSheet exPlannedTrip (dateOf 5000)) ≠ 24 := by
  have h := start_trip_initial_log_zero_totals exPlannedTrip [] 5000
    (by decide) (by decide)
  exact ⟨by rw [h.1], h.2.2.2.2.2.1, h.2.2.2.2.2.2⟩

/-- C10: the duty status periods produced by any two successful `planTrip`
calls made at the same clock time are identical, whatever the trip inputs
and database states are — always the same fixed off-duty period from 00:00
to 06:00 at "Home Base" and on-duty period from 06:00 to 06:30 at "Yard",
on the same grid minutes. -/
theorem duty_periods_input_independent (s1 s2 : DBState) (i1 i2 : PlanInput)
    (now : Nat) (b1 b2 : PlanBundle)
    (h1 : (planTrip s1 i1 now).1 = .ok b1) (h2 : (planTrip s2 i2 now).1 = .ok b2) :
    b1.log_sheets.map Prod.snd = b2.log_sheets.map Prod.snd ∧
    b1.log_sheets.map Prod.snd = [generate_duty_status_periods (dateOf now)] ∧
    generate_duty_status_periods (dateOf now) =
      [ { duty_status := .off_duty, start_time := midnightOf (dateOf now)
          end_time := midnightOf (dateOf now) + 360, location := "Home Base"
          city := "Green Bay", state := "WI", activity_description := "Off duty"
          vehicle_moved := false, grid_start_minute := 0, grid_end_minute := 360 },
        { duty_status := .on_duty, start_time := midnightOf (dateOf now) + 360
          end_time := midnightOf (dateOf now) + 390, location := "Yard"
          city := "Green Bay", state := "WI"
          activity_description := "Pre-trip inspection"
          vehicle_moved := false, grid_start_minute := 360, grid_end_minute := 390 } ] := by
  obtain ⟨_, _, rfl⟩ := (planTrip_ok_iff s1 i1 now b1).mp h1
  obtain ⟨_, _, rfl⟩ := (planTrip_ok_iff s2 i2 now b2).mp h2
  exact ⟨rfl, rfl, rfl⟩

/-- The example request with different locations, driver-independent fields
varied, used to witness input independence. -/
def exInputB : PlanInput :=
  { exInput with
    pickup_location := "Denver"
    dropoff_location := "Seattle"
    current_cycle_used_hours := 10 }

/-- C10 witness: two example runs with different locations and cycle hours
produce identical duty status period lists. -/
theorem duty_periods_input_independent_witness :
    (planSuccessBundle exInput exNow).log_sheets.map Prod.snd =
      (planSuccessBundle exInputB exNow).log_sheets.map Prod.snd := by
  have h := duty_periods_input_independent exState exState exInput exInputB exNow
    (planSuccessBundle exInput exNow) (planSuccessBundle exInputB exNow)
    (by decide) (by decide)
  exact h.1
